import Mathlib

/-!
Shallow embedding of the session-automation core of the course-bot
repository (src/crawler.rs) and proofs about it.

Strings are modelled as lists of characters.  The `regex` library calls of
the source are modelled as follows: the simple patterns that the claims
depend on (`([0-9])([+x\-])([0-9])` of the captcha solver and the literal
corruption-marker search of `check_response`) are implemented concretely;
the page-scraping patterns (`magic_regex`, `name_regex`, `count_regex`),
whose internals no claim depends on, are passed in as capture functions
returning the captured group, `none` meaning "no match".  Rust
`Option::unwrap` on a failed capture is modelled by an explicit `panicked`
outcome, since a panic aborts rather than returning an error value.
Network loops that can run forever are modelled fuel-indexed, `none`
meaning "the loop is still running after `fuel` iterations".
-/

namespace CourseBot

/-- Substring machinery modelling Rust `str::contains`.
`matchesAt needle hay` holds when `needle` is an initial segment of `hay`. -/
def matchesAt : List Char → List Char → Bool
  | [], _ => true
  | _ :: _, [] => false
  | a :: as, b :: bs => a == b && matchesAt as bs

/-- Rust `str::contains`: `needle` occurs somewhere inside `hay`. -/
def containsSub (needle : List Char) : List Char → Bool
  | [] => matchesAt needle []
  | hay@(_ :: rest) => matchesAt needle hay || containsSub needle rest

/-- The corruption marker of `NtnuCrawlerError::check_response`
(crawler.rs line 19). -/
def markerChars : List Char := "不合法執行選課系統".data

/-- True when a response body contains the corruption marker. -/
def containsMarker (s : List Char) : Bool := containsSub markerChars s

/-- The error enum `NtnuCrawlerError` (crawler.rs lines 11-15). -/
inductive NtnuCrawlerError where
  | brokenStateMachine
deriving DecidableEq, Repr

/-- `NtnuCrawlerError::check_response` (crawler.rs lines 17-24). -/
def NtnuCrawlerError.check_response (text : List Char) :
    Except NtnuCrawlerError Unit :=
  if containsMarker text then .error .brokenStateMachine else .ok ()

/-- The error enum `CaptchaServiceError` (crawler.rs lines 334-350); the
status-code and parse-error payloads are dropped since no claim reads
them. -/
inductive CaptchaServiceError where
  | httpErr
  | reqwestErr
  | noneErr
  | invalidErr
  | parseIntErr
deriving DecidableEq, Repr

/-- The operator class `[+x\-]` of `calc_regex` (crawler.rs line 368). -/
def CaptchaSolver.isOpChar (c : Char) : Bool := c == '+' || c == 'x' || c == '-'

/-- Leftmost match of `calc_regex` = `([0-9])([+x\-])([0-9])`
(crawler.rs line 368) in a candidate, returning the numeric values of the
two digit groups (Rust parses each single-digit group with
`str::parse::<i32>`, which on a single ASCII digit yields its value) and
the operator character. -/
def CaptchaSolver.findCalc : List Char → Option (Nat × Char × Nat)
  | [] => none
  | [_] => none
  | [_, _] => none
  | d :: o :: e :: rest =>
    if d.isDigit && CaptchaSolver.isOpChar o && e.isDigit then
      some (d.toNat - 48, o, e.toNat - 48)
    else
      CaptchaSolver.findCalc (o :: e :: rest)

/-- Rust `i32::to_string` for the arithmetic result. -/
def CaptchaSolver.renderInt (i : Int) : List Char :=
  if i < 0 then '-' :: Nat.toDigits 10 (-i).toNat else Nat.toDigits 10 i.toNat

/-- The operator dispatch of `CaptchaSolver::process` (crawler.rs lines
406-411): `+`, `-`, `x` compute, anything else is `InvalidErr`. -/
def CaptchaSolver.applyOp (a : Nat) (o : Char) (b : Nat) :
    Except CaptchaServiceError Int :=
  if o == '+' then .ok ((a : Int) + b)
  else if o == '-' then .ok ((a : Int) - b)
  else if o == 'x' then .ok ((a : Int) * b)
  else .error .invalidErr

/-- Loop body of `CaptchaSolver::process` (crawler.rs lines 388-417),
carrying the `last_option` accumulator.  When the scan ends with
`last_option` still `None` the source returns `InvalidErr`:
line 416 is `last_option.ok_or(CaptchaServiceError::InvalidErr)`
(`NoneErr` is never constructed anywhere in the repository). -/
def CaptchaSolver.processGo (lastOption : Option (List Char)) :
    List (List Char) → Except CaptchaServiceError (List Char)
  | [] =>
    match lastOption with
    | some s => .ok s
    | none => .error .invalidErr
  | resp :: rest =>
    match CaptchaSolver.findCalc resp with
    | some (a, o, b) =>
      match CaptchaSolver.applyOp a o b with
      | .ok v => .ok (CaptchaSolver.renderInt v)
      | .error e => .error e
    | none => CaptchaSolver.processGo (some resp) rest

/-- `CaptchaSolver::process` (crawler.rs lines 388-417). -/
def CaptchaSolver.process (resps : List (List Char)) :
    Except CaptchaServiceError (List Char) :=
  CaptchaSolver.processGo none resps

/-- Spec-side description of "the candidate contains a
digit-operator-digit triple somewhere inside it". -/
def HasTriple (s : List Char) : Prop :=
  ∃ pre d o e post, s = pre ++ d :: o :: e :: post ∧
    d.isDigit = true ∧ CaptchaSolver.isOpChar o = true ∧ e.isDigit = true

/-- Result of `NtnuCrawler::login_magic` (crawler.rs lines 145-165):
`corrupted` is the `BrokenStateMachine` error propagated by
`check_response`, `panicked` is the `Option::unwrap` panic on a failed
`magic_regex` capture (the function has no error-return path for a
missing match). -/
inductive MagicOut where
  | ok (token : List Char)
  | corrupted
  | panicked
deriving DecidableEq, Repr

/-- `NtnuCrawler::login_magic` (crawler.rs lines 145-165) for a run whose
HTTP round trip succeeded with body `text`.  `magicCapture` models
`magic_regex.captures(..).get(1)`. -/
def NtnuCrawler.login_magic (magicCapture : List Char → Option (List Char))
    (text : List Char) : MagicOut :=
  match NtnuCrawlerError.check_response text with
  | .error _ => .corrupted
  | .ok _ =>
    match magicCapture text with
    | none => .panicked
    | some m => .ok m

/-- Result of `NtnuCrawler::landing_page` (crawler.rs lines 215-279):
`corrupted` for a `BrokenStateMachine` error, `panicked` for the
`Option::unwrap` panic on a failed `name_regex` capture. -/
inductive LandingOut where
  | ok
  | corrupted
  | panicked
deriving DecidableEq, Repr

/-- `NtnuCrawler::landing_page` (crawler.rs lines 215-279) for a run
whose four HTTP round trips succeeded, with response bodies `indexBody`
(GET IndexCtrl), `confirmBody` (POST LoginCtrl), `enrollBody`
(GET EnrollCtrl) and `queryBody` (GET CourseQueryCtrl).  `nameCapture`
models `name_regex.captures(..).get(2)`.  As in the source, the body of
the LoginCtrl confirmation POST is never read: `confirmBody` is unused. -/
def NtnuCrawler.landing_page (nameCapture : List Char → Option (List Char))
    (indexBody _confirmBody enrollBody queryBody : List Char) : LandingOut :=
  match NtnuCrawlerError.check_response indexBody with
  | .error _ => .corrupted
  | .ok _ =>
    match nameCapture indexBody with
    | none => .panicked
    | some _name =>
      match NtnuCrawlerError.check_response enrollBody with
      | .error _ => .corrupted
      | .ok _ =>
        match NtnuCrawlerError.check_response queryBody with
        | .error _ => .corrupted
        | .ok _ => .ok

/-- Outcome of one POST of the `NtnuCrawler::query` loop (crawler.rs
lines 290-299): the `send()` call fails, `error_for_status()` fails, or a
body is obtained. -/
inductive QueryResp where
  | sendErr
  | statusErr
  | body (t : List Char)

/-- Result of `NtnuCrawler::query` (crawler.rs lines 281-331).
`exhausted` is the `break Err(e)` of the transport branch once
`retries < max_retry` fails; `panicked` is the `Option::unwrap` panic on
a failed `count_regex` capture; `parseFail` is the `count_str.parse()?`
error. -/
inductive QueryOut where
  | ok (n : Int)
  | corrupted
  | statusFail
  | exhausted
  | parseFail
  | panicked
deriving DecidableEq, Repr

/-- Rust `str::parse::<i32>` restricted to the candidate capture
(`count_regex` guarantees a nonempty decimal-digit string; overflow past
`i32::MAX` is a parse error). -/
def parseI32 (ds : List Char) : Option Int :=
  if !ds.isEmpty && ds.all (fun c => c.isDigit) then
    let n : Nat := ds.foldl (fun a c => a * 10 + (c.toNat - 48)) 0
    if n ≤ 2147483647 then some (n : Int) else none
  else none

/-- The loop of `NtnuCrawler::query` (crawler.rs lines 281-331),
fuel-indexed.  `countCapture` models `count_regex.captures(..).get(1)`;
`resps idx` is the outcome of the `idx`-th POST.  Both the empty-body
branch and the retried transport branch fall through to the
`retries += 1` at the bottom of the loop, exactly as in the source. -/
def NtnuCrawler.queryGo (countCapture : List Char → Option (List Char))
    (resps : Nat → QueryResp) (maxRetry : Int) :
    Nat → Nat → Nat → Option QueryOut
  | 0, _, _ => none
  | fuel + 1, retries, idx =>
    match resps idx with
    | .statusErr => some .statusFail
    | .body t =>
      if containsMarker t then some .corrupted
      else if !t.isEmpty then
        match countCapture t with
        | none => some .panicked
        | some ds =>
          match parseI32 ds with
          | none => some .parseFail
          | some n => some (.ok n)
      else
        NtnuCrawler.queryGo countCapture resps maxRetry fuel (retries + 1) (idx + 1)
    | .sendErr =>
      if (retries : Int) < maxRetry then
        NtnuCrawler.queryGo countCapture resps maxRetry fuel (retries + 1) (idx + 1)
      else
        some .exhausted

/-- Response stream consisting of `e` empty bodies followed by transport
failures on every later POST. -/
def emptyThenFail (e : Nat) : Nat → QueryResp :=
  fun k => if k < e then .body [] else .sendErr

/-- The cookie store of a session, `clear()` makes it empty; cookie
contents are opaque. -/
abbrev CookieJar := List Nat

/-- Outcome of one iteration of the `NtnuCrawler::login` loop
(crawler.rs lines 169-208), abstracting the HTTP traffic of that
attempt:
`magicErr` — `login_magic` returned an error (propagated by the first
question mark); `magicPanic` — `login_magic` panicked on a missing
capture; `captchaRetryable` — `self.captcha()` failed with one of
`InvalidErr`, `NoneErr`, `ParseIntErr` (crawler.rs lines 199-201);
`captchaFatal` — `self.captcha()` failed with any other error
(crawler.rs lines 204-205); `postErr` — the login POST or its
`error_for_status` failed (propagated); `loginResp accepted` — the POST
produced a body, `accepted` meaning it contained `success:true`. -/
inductive LoginAttempt where
  | magicErr
  | magicPanic
  | captchaRetryable
  | captchaFatal
  | postErr
  | loginResp (accepted : Bool)
deriving DecidableEq, Repr

/-- How the `for` loop of `NtnuCrawler::login` ended: `broke` via the
`break` on `success:true`, `finished` by running out of iterations,
`errored` via an early `return Err`, `panicked` via `login_magic`. -/
inductive LoopExit where
  | broke
  | finished
  | errored
  | panicked
deriving DecidableEq, Repr

/-- Trace of one run of the `NtnuCrawler::login` loop: how it exited,
the final value of the `retries` variable, the final cookie jar, and the
cookie jar at the start of each executed attempt (in order). -/
structure LoginRun where
  exit : LoopExit
  retries : Nat
  jar : CookieJar
  visited : List CookieJar
deriving DecidableEq, Repr

/-- The `for i in 0..captcha_retry` loop of `NtnuCrawler::login`
(crawler.rs lines 168-208).  `outs i` is the abstract outcome of attempt
`i` and `gain i` the cookies its HTTP round trips deposit in the store.
Mirrors the source: `retries` is assigned the loop index `i` at the top
of each iteration; on a rejected login or a retryable captcha error the
cookie store is cleared (crawler.rs lines 195, 202) and the loop
continues; every other outcome leaves the loop. -/
def NtnuCrawler.loginGo (outs : Nat → LoginAttempt) (gain : Nat → CookieJar) :
    CookieJar → Nat → Nat → Nat → LoginRun
  | jar, _i, 0, retries => ⟨.finished, retries, jar, []⟩
  | jar, i, remaining + 1, _retries =>
    let jarMid := jar ++ gain i
    match outs i with
    | .magicErr => ⟨.errored, i, jarMid, [jar]⟩
    | .magicPanic => ⟨.panicked, i, jarMid, [jar]⟩
    | .captchaFatal => ⟨.errored, i, jarMid, [jar]⟩
    | .postErr => ⟨.errored, i, jarMid, [jar]⟩
    | .loginResp true => ⟨.broke, i, jarMid, [jar]⟩
    | .loginResp false =>
      let next := NtnuCrawler.loginGo outs gain [] (i + 1) remaining i
      ⟨next.exit, next.retries, next.jar, jar :: next.visited⟩
    | .captchaRetryable =>
      let next := NtnuCrawler.loginGo outs gain [] (i + 1) remaining i
      ⟨next.exit, next.retries, next.jar, jar :: next.visited⟩

/-- Result of `NtnuCrawler::login` (crawler.rs lines 167-213):
`exhausted` is the `bail!("login max retry reached")`. -/
inductive LoginResult where
  | ok
  | exhausted
  | err
  | crashed
deriving DecidableEq, Repr

/-- `NtnuCrawler::login` (crawler.rs lines 167-213): run the loop
starting from cookie jar `jar0`, then apply the post-loop check
`retries >= captcha_retry` (crawler.rs lines 209-211). -/
def NtnuCrawler.login (outs : Nat → LoginAttempt) (gain : Nat → CookieJar)
    (jar0 : CookieJar) (captchaRetry : Int) : LoginResult :=
  let run := NtnuCrawler.loginGo outs gain jar0 0 captchaRetry.toNat 0
  match run.exit with
  | .errored => .err
  | .panicked => .crashed
  | _ => if (run.retries : Int) ≥ captchaRetry then .exhausted else .ok

/-- Outcome of one `self.crawler.query` call as seen by
`NtnuCrawlerManager::query` (crawler.rs line 61): a seat count, an error
that downcasts to `NtnuCrawlerError` (session corruption), or any other
error. -/
inductive CrawlerQueryOutcome where
  | ok (n : Int)
  | corrupted
  | otherErr
deriving DecidableEq, Repr

/-- Result of `NtnuCrawlerManager::query` (crawler.rs lines 58-76):
`corruptErr` re-raises the last corruption error once the counter
exceeds `max_retries`, `initErr` propagates a failing `init()`,
`otherErr` propagates a non-corruption query error. -/
inductive MgrOut where
  | ok (b : Bool)
  | corruptErr
  | initErr
  | otherErr
deriving DecidableEq, Repr

/-- Trace of one run of `NtnuCrawlerManager::query`: its result, the
number of `crawler.query` calls made and the number of `init()` calls
made. -/
structure MgrRun where
  res : MgrOut
  queries : Nat
  inits : Nat
deriving DecidableEq, Repr

/-- The loop of `NtnuCrawlerManager::query` (crawler.rs lines 58-76),
fuel-indexed, against a stub `SessionClient`: `qs idx` is the outcome of
the `idx`-th `crawler.query` call and `initFails idx` tells whether the
`init()` call issued after it fails.  Mirrors the source: a success
breaks with `result != 0`; a corruption error first runs `init()` (whose
failure propagates), then breaks with the corruption error if
`retries > max_retries`, otherwise increments `retries` and loops; any
other error breaks immediately. -/
def NtnuCrawlerManager.queryGo (qs : Nat → CrawlerQueryOutcome)
    (initFails : Nat → Bool) (maxRetries : Int) :
    Nat → Nat → Nat → Option MgrRun
  | 0, _, _ => none
  | fuel + 1, retries, idx =>
    match qs idx with
    | .ok n => some ⟨.ok (decide (n ≠ 0)), 1, 0⟩
    | .otherErr => some ⟨.otherErr, 1, 0⟩
    | .corrupted =>
      if initFails idx then some ⟨.initErr, 1, 1⟩
      else if (retries : Int) > maxRetries then some ⟨.corruptErr, 1, 1⟩
      else
        match NtnuCrawlerManager.queryGo qs initFails maxRetries fuel (retries + 1) (idx + 1) with
        | none => none
        | some r => some ⟨r.res, r.queries + 1, r.inits + 1⟩

/-! Helper lemmas about the captcha solver. -/

theorem findCalc_op : ∀ (s : List Char) (a : Nat) (o : Char) (b : Nat),
    CaptchaSolver.findCalc s = some (a, o, b) → CaptchaSolver.isOpChar o = true := by
  intro s
  induction s with
  | nil => intro a o b h; simp [CaptchaSolver.findCalc] at h
  | cons d t ih =>
    intro a o b h
    rcases t with - | ⟨x, t'⟩
    · simp [CaptchaSolver.findCalc] at h
    rcases t' with - | ⟨y, rest⟩
    · simp [CaptchaSolver.findCalc] at h
    rw [CaptchaSolver.findCalc] at h
    split at h
    · rename_i hcond
      simp only [Option.some.injEq, Prod.mk.injEq] at h
      obtain ⟨-, ho, -⟩ := h
      subst ho
      simp only [Bool.and_eq_true] at hcond
      exact hcond.1.2
    · exact ih a o b h

theorem findCalc_sound : ∀ (s : List Char) (a : Nat) (o : Char) (b : Nat),
    CaptchaSolver.findCalc s = some (a, o, b) →
    ∃ pre d e post, s = pre ++ d :: o :: e :: post ∧ d.isDigit = true ∧
      CaptchaSolver.isOpChar o = true ∧ e.isDigit = true ∧
      a = d.toNat - 48 ∧ b = e.toNat - 48 := by
  intro s
  induction s with
  | nil => intro a o b h; simp [CaptchaSolver.findCalc] at h
  | cons d t ih =>
    intro a o b h
    rcases t with - | ⟨x, t'⟩
    · simp [CaptchaSolver.findCalc] at h
    rcases t' with - | ⟨y, rest⟩
    · simp [CaptchaSolver.findCalc] at h
    rw [CaptchaSolver.findCalc] at h
    split at h
    · rename_i hcond
      simp only [Option.some.injEq, Prod.mk.injEq] at h
      obtain ⟨ha, ho, hb⟩ := h
      subst ho
      simp only [Bool.and_eq_true] at hcond
      exact ⟨[], d, y, rest, rfl, hcond.1.1, hcond.1.2, hcond.2, ha.symm, hb.symm⟩
    · obtain ⟨pre, d', e', post, hs, h1, h2, h3, h4, h5⟩ := ih a o b h
      exact ⟨d :: pre, d', e', post, by rw [hs]; rfl, h1, h2, h3, h4, h5⟩

theorem hasTriple_length (s : List Char) (h : HasTriple s) : 3 ≤ s.length := by
  obtain ⟨pre, d, o, e, post, hs, -, -, -⟩ := h
  subst hs
  simp only [List.length_append, List.length_cons]
  omega

theorem findCalc_isSome : ∀ (s : List Char), HasTriple s →
    (CaptchaSolver.findCalc s).isSome = true := by
  intro s
  induction s with
  | nil =>
    rintro ⟨pre, d, o, e, post, hs, -, -, -⟩
    simp at hs
  | cons x t ih =>
    rintro ⟨pre, d, o, e, post, hs, hd, ho, he⟩
    rcases pre with - | ⟨q, pre'⟩
    · simp only [List.nil_append, List.cons.injEq] at hs
      obtain ⟨hx, ht⟩ := hs
      subst hx; subst ht
      rw [CaptchaSolver.findCalc]
      simp [hd, ho, he]
    · simp only [List.cons_append, List.cons.injEq] at hs
      obtain ⟨hx, ht⟩ := hs
      have htT : HasTriple t := ⟨pre', d, o, e, post, ht, hd, ho, he⟩
      have hlen : 3 ≤ t.length := hasTriple_length t htT
      rcases t with - | ⟨y, t1⟩
      · simp at hlen
      rcases t1 with - | ⟨z, t2⟩
      · simp at hlen
      rw [CaptchaSolver.findCalc]
      split
      · rfl
      · exact ih htT

theorem applyOp_ok (a : Nat) (o : Char) (b : Nat)
    (h : CaptchaSolver.isOpChar o = true) :
    ∃ v, CaptchaSolver.applyOp a o b = .ok v := by
  simp only [CaptchaSolver.isOpChar, Bool.or_eq_true, beq_iff_eq] at h
  rcases h with (h | h) | h <;> subst h <;> simp [CaptchaSolver.applyOp]

theorem processGo_all_none : ∀ (l : List (List Char)) (cur : List Char),
    (∀ r ∈ l, CaptchaSolver.findCalc r = none) →
    CaptchaSolver.processGo (some cur) l = .ok (l.getLastD cur) := by
  intro l
  induction l with
  | nil => intro cur _; rfl
  | cons r rest ih =>
    intro cur hall
    have hr : CaptchaSolver.findCalc r = none := hall r (List.mem_cons_self r rest)
    rw [CaptchaSolver.processGo, hr, List.getLastD_cons]
    exact ih r (fun p hp => hall p (List.mem_cons_of_mem r hp))

theorem processGo_skip : ∀ (pre : List (List Char)) (lastOption : Option (List Char))
    (r : List Char) (post : List (List Char)) (a : Nat) (o : Char) (b : Nat) (v : Int),
    (∀ p ∈ pre, CaptchaSolver.findCalc p = none) →
    CaptchaSolver.findCalc r = some (a, o, b) →
    CaptchaSolver.applyOp a o b = .ok v →
    CaptchaSolver.processGo lastOption (pre ++ r :: post) =
      .ok (CaptchaSolver.renderInt v) := by
  intro pre
  induction pre with
  | nil =>
    intro lastOption r post a o b v _ hr hv
    simp only [List.nil_append, CaptchaSolver.processGo, hr, hv]
  | cons p ps ih =>
    intro lastOption r post a o b v hall hr hv
    have hp : CaptchaSolver.findCalc p = none := hall p (List.mem_cons_self p ps)
    rw [List.cons_append, CaptchaSolver.processGo, hp]
    exact ih (some p) r post a o b v
      (fun q hq => hall q (List.mem_cons_of_mem p hq)) hr hv

/-- C3: for every non-empty candidate list, `CaptchaSolver::process`
returns the computed decimal result of the first candidate (in returned
order) matching the digit-operator-digit pattern with operator in
`+`, `-`, `x`, an arithmetic match anywhere in the list winning over a
non-arithmetic candidate appearing earlier; and when no candidate matches
the arithmetic pattern, it returns the last candidate verbatim. -/
theorem claim_c3_captcha_selection (resps : List (List Char)) (hne : resps ≠ []) :
    ((∀ r ∈ resps, CaptchaSolver.findCalc r = none) →
      CaptchaSolver.process resps = .ok (resps.getLastD []))
  ∧ (∀ pre r post a o b, resps = pre ++ r :: post →
      (∀ p ∈ pre, CaptchaSolver.findCalc p = none) →
      CaptchaSolver.findCalc r = some (a, o, b) →
      ∃ v, CaptchaSolver.applyOp a o b = .ok v ∧
        CaptchaSolver.process resps = .ok (CaptchaSolver.renderInt v)) := by
  constructor
  · intro hall
    rcases resps with - | ⟨r, rest⟩
    · exact absurd rfl hne
    have hr : CaptchaSolver.findCalc r = none := hall r (List.mem_cons_self r rest)
    rw [CaptchaSolver.process, CaptchaSolver.processGo, hr, List.getLastD_cons]
    exact processGo_all_none rest r (fun p hp => hall p (List.mem_cons_of_mem r hp))
  · intro pre r post a o b hsplit hpre hr
    obtain ⟨v, hv⟩ := applyOp_ok a o b (findCalc_op r a o b hr)
    refine ⟨v, hv, ?_⟩
    rw [hsplit, CaptchaSolver.process]
    exact processGo_skip pre none r post a o b v hpre hr hv

/-- C3 witness: on the source's own test vector
`["lxzz", "1+2"]` the arithmetic candidate in second position wins and
the answer is the rendered sum. -/
theorem claim_c3_captcha_selection_witness :
    ∃ v, CaptchaSolver.applyOp 1 '+' 2 = .ok v ∧
      CaptchaSolver.process ["lxzz".data, "1+2".data] =
        .ok (CaptchaSolver.renderInt v) :=
  (claim_c3_captcha_selection ["lxzz".data, "1+2".data] (by decide)).2
    ["lxzz".data] "1+2".data [] 1 '+' 2 rfl (by decide) (by decide)

/-- C4 counterexample: on the empty candidate list
`CaptchaSolver::process` does not fail with `NoneErr` (the "no viable
answer" variant): line 416 is
`last_option.ok_or(CaptchaServiceError::InvalidErr)`, so the empty list
yields `InvalidErr` and `NoneErr` is never produced. -/
theorem claim_c4_captcha_empty_cx :
    CaptchaSolver.process [] ≠ .error .noneErr ∧
    CaptchaSolver.process [] = .error .invalidErr :=
  ⟨fun h => CaptchaServiceError.noConfusion (Except.error.inj h), rfl⟩

/-- C4 amended: on an empty candidate list `CaptchaSolver::process`
fails with the `InvalidErr` ("service response invalid") variant — the
`ok_or` default on the never-set `last_option` — and with no other
variant. -/
theorem claim_c4_captcha_empty_amended :
    CaptchaSolver.process [] = .error .invalidErr := rfl

/-- C10: the arithmetic detection of `CaptchaSolver::process` is
substring-based: every candidate containing a digit-operator-digit
triple anywhere inside it is treated as an arithmetic challenge and the
computed value of the embedded (leftmost) expression is returned; the
triple reported by `findCalc` really is embedded in the candidate; and
concretely `["ab1+2cd"]` yields `"3"`. -/
theorem claim_c10_substring_detection :
    (∀ s : List Char, HasTriple s →
      ∃ a o b v, CaptchaSolver.findCalc s = some (a, o, b) ∧
        CaptchaSolver.applyOp a o b = .ok v ∧
        CaptchaSolver.process [s] = .ok (CaptchaSolver.renderInt v))
  ∧ (∀ s a o b, CaptchaSolver.findCalc s = some (a, o, b) →
      ∃ pre d e post, s = pre ++ d :: o :: e :: post ∧ d.isDigit = true ∧
        CaptchaSolver.isOpChar o = true ∧ e.isDigit = true ∧
        a = d.toNat - 48 ∧ b = e.toNat - 48)
  ∧ CaptchaSolver.process ["ab1+2cd".data] = .ok "3".data := by
  refine ⟨?_, findCalc_sound, rfl⟩
  intro s hs
  have h1 := findCalc_isSome s hs
  rcases h2 : CaptchaSolver.findCalc s with - | ⟨a, o, b⟩
  · rw [h2] at h1; simp at h1
  obtain ⟨v, hv⟩ := applyOp_ok a o b (findCalc_op s a o b h2)
  refine ⟨a, o, b, v, rfl, hv, ?_⟩
  have := processGo_skip [] none s [] a o b v (by intro p hp; simp at hp) h2 hv
  simpa [CaptchaSolver.process] using this

/-- C10 witness: the candidate `"ab1+2cd"` contains the triple
`1+2` and the solver computes it. -/
theorem claim_c10_substring_detection_witness :
    HasTriple "ab1+2cd".data ∧
    ∃ a o b v, CaptchaSolver.findCalc "ab1+2cd".data = some (a, o, b) ∧
      CaptchaSolver.applyOp a o b = .ok v ∧
      CaptchaSolver.process ["ab1+2cd".data] =
        .ok (CaptchaSolver.renderInt v) :=
  ⟨⟨"ab".data, '1', '+', '2', "cd".data, by decide, by decide, by decide, by decide⟩,
    claim_c10_substring_detection.1 "ab1+2cd".data
      ⟨"ab".data, '1', '+', '2', "cd".data, by decide, by decide, by decide, by decide⟩⟩

/-- C1 (code-bug evaluation): with `captcha_retry = 2` and every login
attempt rejected (no `success:true` in the response), `NtnuCrawler::login`
returns success instead of the intended "login max retry reached"
failure: the loop body assigns `retries = i`, so after a fully failed
loop `retries = captcha_retry - 1` and the post-loop check
`retries >= captcha_retry` never fires.  The same happens when every
attempt fails with a retryable captcha error.  The bail fires only when
`captcha_retry = 0` and no attempt ran at all. -/
theorem claim_c1_login_exhaustion_bug :
    NtnuCrawler.login (fun _ => .loginResp false) (fun _ => []) [] 2 = .ok
  ∧ NtnuCrawler.login (fun _ => .captchaRetryable) (fun _ => []) [] 3 = .ok
  ∧ NtnuCrawler.login (fun _ => .loginResp false) (fun _ => []) [] 0 = .exhausted :=
  ⟨by decide, by decide, by decide⟩

/-- C7 counterexample: on a body with no corruption marker and no
`magic_regex` match, `NtnuCrawler::login_magic` panics through
`Option::unwrap` — it does not return an error value to the caller (in
particular not the corruption error, its only error-return path). -/
theorem claim_c7_extraction_cx :
    NtnuCrawler.login_magic (fun _ => none) [] = .panicked
  ∧ NtnuCrawler.login_magic (fun _ => none) [] ≠ .corrupted :=
  ⟨rfl, by decide⟩

/-- C7 amended: for every response body in which the token capture
pattern has no match (and the corruption marker is absent),
`NtnuCrawler::login_magic` panics (a crash, not a returned error). -/
theorem claim_c7_extraction_amended
    (magicCapture : List Char → Option (List Char)) (text : List Char)
    (hm : containsMarker text = false) (hc : magicCapture text = none) :
    NtnuCrawler.login_magic magicCapture text = .panicked := by
  simp [NtnuCrawler.login_magic, NtnuCrawlerError.check_response, hm, hc]

/-- C7 witness: the empty body has no marker and no match. -/
theorem claim_c7_extraction_amended_witness :
    containsMarker [] = false ∧
    NtnuCrawler.login_magic (fun _ => none) [] = .panicked :=
  ⟨by decide, claim_c7_extraction_amended (fun _ => none) [] (by decide) rfl⟩

/-- C6 counterexample: a corruption marker appearing in the body of the
LoginCtrl confirmation POST does not fail `NtnuCrawler::landing_page` —
that body is never read, and the call succeeds. -/
theorem claim_c6_landing_cx :
    NtnuCrawler.landing_page (fun _ => some []) [] markerChars [] [] = .ok
  ∧ containsMarker markerChars = true :=
  ⟨by decide, by decide⟩

/-- C6 amended: `NtnuCrawler::landing_page` checks the corruption marker
in the index GET, enrollment-entry GET and course-query GET bodies, any
match failing the call with the corruption error and aborting the later
steps; the confirmation POST's body is not read, so the call's outcome
is independent of it. -/
theorem claim_c6_landing_marker_checks
    (nameCapture : List Char → Option (List Char)) (r1 r2 r3 r4 : List Char) :
    (containsMarker r1 = true →
      NtnuCrawler.landing_page nameCapture r1 r2 r3 r4 = .corrupted)
  ∧ (containsMarker r1 = false → (∃ nm, nameCapture r1 = some nm) →
      containsMarker r3 = true →
      NtnuCrawler.landing_page nameCapture r1 r2 r3 r4 = .corrupted)
  ∧ (containsMarker r1 = false → (∃ nm, nameCapture r1 = some nm) →
      containsMarker r3 = false → containsMarker r4 = true →
      NtnuCrawler.landing_page nameCapture r1 r2 r3 r4 = .corrupted)
  ∧ (containsMarker r1 = false → (∃ nm, nameCapture r1 = some nm) →
      containsMarker r3 = false → containsMarker r4 = false →
      NtnuCrawler.landing_page nameCapture r1 r2 r3 r4 = .ok) := by
  refine ⟨?_, ?_, ?_, ?_⟩
  · intro h1
    simp [NtnuCrawler.landing_page, NtnuCrawlerError.check_response, h1]
  · rintro h1 ⟨nm, hnm⟩ h3
    simp [NtnuCrawler.landing_page, NtnuCrawlerError.check_response, h1, hnm, h3]
  · rintro h1 ⟨nm, hnm⟩ h3 h4
    simp [NtnuCrawler.landing_page, NtnuCrawlerError.check_response, h1, hnm, h3, h4]
  · rintro h1 ⟨nm, hnm⟩ h3 h4
    simp [NtnuCrawler.landing_page, NtnuCrawlerError.check_response, h1, hnm, h3, h4]

/-- C6 witness: a marker in the index body fails the call. -/
theorem claim_c6_landing_marker_checks_witness :
    containsMarker markerChars = true ∧
    NtnuCrawler.landing_page (fun _ => some []) markerChars [] [] [] = .corrupted :=
  ⟨by decide,
    (claim_c6_landing_marker_checks (fun _ => some []) markerChars [] [] []).1 (by decide)⟩

/-- Every cookie jar recorded at the start of an executed login attempt
is empty when the loop is entered with an empty jar: both loop-continuing
outcomes (rejected login, retryable captcha error) clear the store. -/
theorem loginGo_visited_of_empty : ∀ (remaining : Nat) (outs : Nat → LoginAttempt)
    (gain : Nat → CookieJar) (i retries : Nat),
    ∀ x ∈ (NtnuCrawler.loginGo outs gain [] i remaining retries).visited,
      x = ([] : CookieJar) := by
  intro remaining
  induction remaining with
  | zero =>
    intro outs gain i retries x hx
    simp [NtnuCrawler.loginGo] at hx
  | succ n ih =>
    intro outs gain i retries x hx
    simp only [NtnuCrawler.loginGo] at hx
    rcases houts : outs i with - | - | - | - | - | accepted <;>
      rw [houts] at hx
    · simpa using hx
    · simpa using hx
    · rcases (List.mem_cons).1 (by simpa using hx) with h | h
      · exact h
      · exact ih outs gain (i + 1) i x h
    · simpa using hx
    · simpa using hx
    · cases accepted
      · rcases (List.mem_cons).1 (by simpa using hx) with h | h
        · exact h
        · exact ih outs gain (i + 1) i x h
      · simpa using hx

/-- C8: in `NtnuCrawler::login`, after a rejected login or a retryable
captcha-service failure the cookie store is cleared before the next
attempt, so every attempt after the first starts from an empty cookie
jar — for any entry jar and any cookies deposited during the attempts —
and when the loop is entered with an empty jar (as after
`NtnuCrawlerManager::init`'s `clear()`) every attempt starts empty. -/
theorem claim_c8_attempt_starts_empty (outs : Nat → LoginAttempt)
    (gain : Nat → CookieJar) (jar0 : CookieJar) (captchaRetry : Int) :
    (∀ x ∈ ((NtnuCrawler.loginGo outs gain jar0 0 captchaRetry.toNat 0).visited).drop 1,
      x = ([] : CookieJar))
  ∧ (jar0 = [] →
      ∀ x ∈ (NtnuCrawler.loginGo outs gain jar0 0 captchaRetry.toNat 0).visited,
        x = ([] : CookieJar)) := by
  constructor
  · generalize captchaRetry.toNat = n
    cases n with
    | zero =>
      intro x hx
      simp [NtnuCrawler.loginGo] at hx
    | succ m =>
      intro x hx
      simp only [NtnuCrawler.loginGo] at hx
      rcases houts : outs 0 with - | - | - | - | - | accepted <;>
        rw [houts] at hx
      · simp at hx
      · simp at hx
      · exact loginGo_visited_of_empty m outs gain 1 0 x (by simpa using hx)
      · simp at hx
      · simp at hx
      · cases accepted
        · exact loginGo_visited_of_empty m outs gain 1 0 x (by simpa using hx)
        · simp at hx
  · rintro rfl x hx
    exact loginGo_visited_of_empty captchaRetry.toNat outs gain 0 0 x hx

/-- C8 witness: two rejected attempts with a non-empty entry jar and
cookies deposited in every attempt; the second attempt's start jar is
empty. -/
theorem claim_c8_attempt_starts_empty_witness :
    ([] : CookieJar) ∈
      ((NtnuCrawler.loginGo (fun _ => .loginResp false) (fun _ => [5]) [7] 0
        (2 : Int).toNat 0).visited).drop 1
  ∧ ([] : CookieJar) = [] :=
  ⟨by decide,
    (claim_c8_attempt_starts_empty (fun _ => .loginResp false) (fun _ => [5]) [7] 2).1
      [] (by decide)⟩

/-- C5 counterexample: with `max_retry = 1`, a first transport failure
followed by a good body is retried and succeeds; but if an empty body
precedes that same single transport failure, the failure immediately
exhausts the budget — the empty-body iteration incremented the shared
`retries` counter.  The number of transport failures tolerated therefore
depends on how many empty bodies occurred, contradicting the claim. -/
theorem claim_c5_query_empty_budget_cx :
    NtnuCrawler.queryGo (fun _ => some ['3'])
      (fun k => if k = 0 then .sendErr else .body ['a']) 1 9 0 0 = some (.ok 3)
  ∧ NtnuCrawler.queryGo (fun _ => some ['3'])
      (fun k => if k = 0 then .body [] else if k = 1 then .sendErr else .body ['a'])
      1 9 0 0 = some .exhausted :=
  ⟨by decide, by decide⟩

theorem queryGo_all_empty (countCapture : List Char → Option (List Char))
    (m : Int) : ∀ (fuel retries idx : Nat),
    NtnuCrawler.queryGo countCapture (fun _ => .body []) m fuel retries idx = none := by
  intro fuel
  induction fuel with
  | zero => intro retries idx; rfl
  | succ n ih =>
    intro retries idx
    have hm : containsMarker ([] : List Char) = false := by decide
    rw [NtnuCrawler.queryGo]
    simp only [hm, List.isEmpty_nil, Bool.not_true, Bool.false_eq_true, if_false]
    exact ih (retries + 1) (idx + 1)

theorem queryGo_emptyThenFail (countCapture : List Char → Option (List Char))
    (e m : Nat) (he : e ≤ m) : ∀ (fuel r : Nat), r ≤ m →
    NtnuCrawler.queryGo countCapture (emptyThenFail e) (m : Int) fuel r r =
      (if m - r < fuel then some .exhausted else none) := by
  intro fuel
  induction fuel with
  | zero =>
    intro r hr
    rw [NtnuCrawler.queryGo, if_neg (by omega)]
  | succ n ih =>
    intro r hr
    rw [NtnuCrawler.queryGo]
    by_cases hre : r < e
    · have hstep : emptyThenFail e r = .body [] := by simp [emptyThenFail, hre]
      rw [hstep]
      have hmk : containsMarker ([] : List Char) = false := by decide
      simp only [hmk, List.isEmpty_nil, Bool.not_true, Bool.false_eq_true, if_false]
      rw [ih (r + 1) (by omega)]
      simp only [show (m - (r + 1) < n) ↔ (m - r < n + 1) from by omega]
    · have hstep : emptyThenFail e r = .sendErr := by simp [emptyThenFail, hre]
      rw [hstep]
      by_cases hrm : r < m
      · rw [if_pos (by exact_mod_cast hrm)]
        rw [ih (r + 1) (by omega)]
        simp only [show (m - (r + 1) < n) ↔ (m - r < n + 1) from by omega]
      · have hreq : r = m := by omega
        subst hreq
        rw [if_neg (by simp), if_pos (by omega)]

/-- C5 amended: in `NtnuCrawler::query`, an empty response body causes a
fixed wait and a repeat of the POST, and the empty-body branch itself
never consults `max_retry` (a stream of only empty bodies loops without
bound, for every fuel); but each empty-body repeat increments the shared
`retries` counter, so empty bodies do consume the transport retry
budget: after `e` empty bodies followed by transport failures the loop
exhausts on overall attempt `m + 1` (fuel `m + 1` suffices and fuel `m`
does not), i.e. after only `m + 1 - e` transport failures instead of
`m + 1`. -/
theorem claim_c5_query_empty_budget (e m : Nat) (he : e ≤ m) :
    (∀ (countCapture : List Char → Option (List Char)) (fuel retries idx : Nat),
      NtnuCrawler.queryGo countCapture (fun _ => .body []) (m : Int)
        fuel retries idx = none)
  ∧ (∀ countCapture : List Char → Option (List Char),
      NtnuCrawler.queryGo countCapture (emptyThenFail e) (m : Int)
        (m + 1) 0 0 = some .exhausted)
  ∧ (∀ countCapture : List Char → Option (List Char),
      NtnuCrawler.queryGo countCapture (emptyThenFail e) (m : Int)
        m 0 0 = none) := by
  refine ⟨fun cc => queryGo_all_empty cc (m : Int), ?_, ?_⟩
  · intro cc
    rw [queryGo_emptyThenFail cc e m he (m + 1) 0 (Nat.zero_le m),
      if_pos (by omega)]
  · intro cc
    rw [queryGo_emptyThenFail cc e m he m 0 (Nat.zero_le m),
      if_neg (by omega)]

/-- C5 witness: one empty body, `max_retry = 2`. -/
theorem claim_c5_query_empty_budget_witness :
    1 ≤ 2 ∧
    NtnuCrawler.queryGo (fun _ => none) (emptyThenFail 1) ((2 : Nat) : Int)
      (2 + 1) 0 0 = some .exhausted :=
  ⟨by decide, (claim_c5_query_empty_budget 1 2 (by decide)).2.1 (fun _ => none)⟩

theorem mgrQueryGo_queries_pos (qs : Nat → CrawlerQueryOutcome)
    (initFails : Nat → Bool) (M : Int) :
    ∀ (fuel retries idx : Nat) (r : MgrRun),
    NtnuCrawlerManager.queryGo qs initFails M fuel retries idx = some r →
    1 ≤ r.queries := by
  intro fuel retries idx r h
  cases fuel with
  | zero => simp [NtnuCrawlerManager.queryGo] at h
  | succ n =>
    rw [NtnuCrawlerManager.queryGo] at h
    rcases hq : qs idx with k | - | - <;> simp only [hq] at h
    · cases h; simp
    · split at h
      · cases h; simp
      · split at h
        · cases h; simp
        · rcases hrec : NtnuCrawlerManager.queryGo qs initFails M n (retries + 1) (idx + 1)
            with - | rr <;> rw [hrec] at h
          · simp at h
          · cases h; simp
    · cases h; simp

theorem mgrQueryGo_all_corrupted (m : Nat) :
    ∀ (fuel r idx : Nat), r ≤ m + 1 → m + 2 - r ≤ fuel →
    NtnuCrawlerManager.queryGo (fun _ => .corrupted) (fun _ => false) (m : Int)
      fuel r idx = some ⟨.corruptErr, m + 2 - r, m + 2 - r⟩ := by
  intro fuel
  induction fuel with
  | zero => intro r idx h1 h2; omega
  | succ n ih =>
    intro r idx h1 h2
    rw [NtnuCrawlerManager.queryGo]
    by_cases hr : r = m + 1
    · subst hr
      rw [if_neg (by simp), if_pos (by push_cast; omega)]
      have h12 : m + 2 - (m + 1) = 1 := by omega
      rw [h12]
    · have hrm : r ≤ m := by omega
      rw [if_neg (by simp), if_neg (by omega)]
      rw [ih (r + 1) (idx + 1) (by omega) (by omega)]
      simp
      omega

/-- C2: `NtnuCrawlerManager::query` against a stub client that always
reports session corruption terminates: with successful `init()` calls it
makes exactly `max_retries + 2` query calls and `max_retries + 2` init
calls (one init per corrupted attempt) and then returns the corruption
error, for every sufficient fuel; an outcome that is not a corruption
error is propagated immediately after exactly one query and no init; and
on a first corrupted outcome with a successful init the manager re-runs
the query (at least two query calls, at least one init). -/
theorem claim_c2_manager_recovery (m : Nat) :
    (∀ fuel, m + 2 ≤ fuel →
      NtnuCrawlerManager.queryGo (fun _ => .corrupted) (fun _ => false) (m : Int)
        fuel 0 0 = some ⟨.corruptErr, m + 2, m + 2⟩)
  ∧ (∀ (qs : Nat → CrawlerQueryOutcome) (initFails : Nat → Bool) (fuel idx : Nat),
      qs idx = .otherErr →
      NtnuCrawlerManager.queryGo qs initFails (m : Int) (fuel + 1) 0 idx =
        some ⟨.otherErr, 1, 0⟩)
  ∧ (∀ (qs : Nat → CrawlerQueryOutcome) (initFails : Nat → Bool) (fuel : Nat)
      (r : MgrRun), qs 0 = .corrupted → initFails 0 = false →
      NtnuCrawlerManager.queryGo qs initFails (m : Int) (fuel + 2) 0 0 = some r →
      2 ≤ r.queries ∧ 1 ≤ r.inits) := by
  refine ⟨?_, ?_, ?_⟩
  · intro fuel hf
    have := mgrQueryGo_all_corrupted m fuel 0 0 (by omega) (by omega)
    simpa using this
  · intro qs initFails fuel idx hq
    rw [NtnuCrawlerManager.queryGo, hq]
  · intro qs initFails fuel r hq hinit h
    rw [NtnuCrawlerManager.queryGo, hq, hinit] at h
    rw [if_neg (by simp), if_neg (by push_cast; omega)] at h
    rcases hrec : NtnuCrawlerManager.queryGo qs initFails (m : Int) (fuel + 1) 1 1
      with - | rr <;> rw [hrec] at h
    · simp at h
    · have hq1 := mgrQueryGo_queries_pos qs initFails (m : Int) (fuel + 1) 1 1 rr hrec
      cases h
      constructor
      · simp; omega
      · simp

/-- C2 witness: `max_retries = 0` gives two query calls and two init
calls before the corruption error is returned. -/
theorem claim_c2_manager_recovery_witness :
    0 + 2 ≤ 2 ∧
    NtnuCrawlerManager.queryGo (fun _ => .corrupted) (fun _ => false) ((0 : Nat) : Int)
      2 0 0 = some ⟨.corruptErr, 0 + 2, 0 + 2⟩ :=
  ⟨by decide, (claim_c2_manager_recovery 0).1 2 (by decide)⟩

/-- C9: a successful stub query outcome with seat count `n` makes
`NtnuCrawlerManager::query` return immediately with the boolean
`n != 0`: true exactly when the seat count is nonzero, false exactly
when it is zero — from any loop state. -/
theorem claim_c9_seat_count (qs : Nat → CrawlerQueryOutcome)
    (initFails : Nat → Bool) (M : Int) (fuel retries idx : Nat) (n : Int)
    (h : qs idx = .ok n) :
    ∃ r, NtnuCrawlerManager.queryGo qs initFails M (fuel + 1) retries idx = some r ∧
      r.res = .ok (decide (n ≠ 0)) ∧ (r.res = .ok true ↔ n ≠ 0) ∧
      (r.res = .ok false ↔ n = 0) := by
  refine ⟨⟨.ok (decide (n ≠ 0)), 1, 0⟩, ?_, rfl, ?_, ?_⟩
  · rw [NtnuCrawlerManager.queryGo, h]
  · by_cases hn : n = 0 <;> simp [hn]
  · by_cases hn : n = 0 <;> simp [hn]

/-- C9 witness: seat count 3 yields `true`. -/
theorem claim_c9_seat_count_witness :
    ∃ r, NtnuCrawlerManager.queryGo (fun _ => .ok 3) (fun _ => false) 0 (0 + 1) 0 0 =
        some r ∧
      r.res = .ok (decide ((3 : Int) ≠ 0)) ∧ (r.res = .ok true ↔ (3 : Int) ≠ 0) ∧
      (r.res = .ok false ↔ (3 : Int) = 0) :=
  claim_c9_seat_count (fun _ => .ok 3) (fun _ => false) 0 0 0 0 3 rfl

end CourseBot
